import Mathlib

/-!
# Verification of the sketch-codes game backend (`backend/main.py`)

Shallow embedding of the per-room game-session logic of the sketch-codes
repository: the key-card generator, the room session state machine
(`GUESS_WORD`, `SUBMIT_DRAWING`, `END_GUESSING` message handling), the
disconnect cleanup, and the connect-time room resolution.  All definitions
are translated directly from `backend/main.py`; theorems settle the spec's
claims about them.
-/

namespace SketchCodes

/-! ## Key Card Generator (`generate_key_cards`, main.py lines 723-769)

The Python function draws random samples without replacement from a
shrinking pool `available_indices` of the 25 grid indices.  We embed the
function parameterised by the sampled positions; `ValidSample` captures
exactly the possible outcomes of the pool-based sampling (all sampled
positions distinct and below 25, with the sample sizes used by the code).
-/

/-- Imperative loop `for pos in positions: card[pos] = value`. -/
def setAll (card : List String) (positions : List Nat) (value : String) : List String :=
  positions.foldl (fun c pos => c.set pos value) card

/-- `generate_key_cards` (main.py 723-769), parameterised by the positions that
`random.sample` / `random.choice` drew from the shrinking pool:
3 shared greens, 1 shared assassin, 6 unique greens per card, 2 unique
assassins per card; everything else stays `"neutral"`. -/
def generate_key_cards (shared_green : List Nat) (shared_assassin : Nat)
    (a_green b_green a_assassin b_assassin : List Nat) :
    List String × List String :=
  let key_a := List.replicate 25 "neutral"
  let key_b := List.replicate 25 "neutral"
  let key_a := setAll key_a shared_green "green"
  let key_b := setAll key_b shared_green "green"
  let key_a := key_a.set shared_assassin "assassin"
  let key_b := key_b.set shared_assassin "assassin"
  let key_a := setAll key_a a_green "green"
  let key_b := setAll key_b b_green "green"
  let key_a := setAll key_a a_assassin "assassin"
  let key_b := setAll key_b b_assassin "assassin"
  (key_a, key_b)

/-- The sampled positions a run of `generate_key_cards` can actually draw:
`random.sample`/`random.choice` on the shrinking `available_indices` pool
yields pairwise-distinct indices below 25, with the sizes 3, 1, 6, 6, 2, 2. -/
def ValidSample (shared_green : List Nat) (shared_assassin : Nat)
    (a_green b_green a_assassin b_assassin : List Nat) : Prop :=
  shared_green.length = 3 ∧ a_green.length = 6 ∧ b_green.length = 6 ∧
  a_assassin.length = 2 ∧ b_assassin.length = 2 ∧
  (shared_green ++ shared_assassin :: (a_green ++ b_green ++ a_assassin ++ b_assassin)).Nodup ∧
  ∀ x ∈ shared_green ++ shared_assassin :: (a_green ++ b_green ++ a_assassin ++ b_assassin),
    x < 25

/-- Pointwise view of one generated key card: the value slot `n` holds after the
four assignment passes (greens, shared assassin, unique greens, unique
assassins), later passes overwriting earlier ones. -/
def keyFun (shared_green : List Nat) (shared_assassin : Nat)
    (unique_green unique_assassin : List Nat) (n : Nat) : String :=
  if n ∈ unique_assassin then "assassin"
  else if n ∈ unique_green then "green"
  else if shared_assassin = n then "assassin"
  else if n ∈ shared_green then "green"
  else "neutral"

/-! ## Room session state (`GameState`, main.py 75-107)

Sockets (`clients : Dict[str, WebSocket]`) are modelled by their key set, a
list of client ids; broadcasts are I/O and carry no game state.  Stroke point
coordinates are numeric data the server never computes with; they are
embedded as rationals. -/

/-- `Stroke` (main.py 75-80). -/
structure Stroke where
  id : String
  points : List (List Rat)
  color : String
  width : Int
  tool : String
deriving DecidableEq, Repr

/-- `CardRevealStatus` (main.py 82-84): per-index reveal record, one slot per
clue-giver perspective. -/
structure CardRevealStatus where
  revealed_by_guesser_for_a : Option String
  revealed_by_guesser_for_b : Option String
deriving DecidableEq, Repr

/-- The freshly constructed `CardRevealStatus()` (both slots `None`). -/
def emptyReveal : CardRevealStatus := ⟨none, none⟩

/-- `GameState` (main.py 86-107). -/
structure GameState where
  game_id : String
  clients : List String
  strokes : List Stroke
  current_turn_drawing_strokes : List Stroke
  grid_words : List String
  key_card_a : List String
  key_card_b : List String
  player_a_id : Option String
  player_b_id : Option String
  grid_reveal_status : List CardRevealStatus
  current_drawing_player_id : Option String
  current_guessing_player_id : Option String
  drawing_phase_active : Bool
  drawing_submitted : Bool
  guessing_active : Bool
  correct_guesses_this_turn : Nat
  turn_number : Nat
  game_over : Bool
  winner : Option String
deriving DecidableEq, Repr

/-! ## Message handlers (the per-message branches of `websocket_endpoint`)

Python `continue` after a failed precondition leaves the room state
untouched, as does an exception raised before any mutation (an `IndexError`
on a malformed state aborts the message loop with nothing written); both are
modelled as returning the state unchanged. -/

/-- Turn switch + new-turn reset, written out identically in the
`GUESS_WORD` turn-end branch (main.py 578-589) and the `END_GUESSING`
branch (main.py 602-614). -/
def turnTransition (gs : GameState) : GameState :=
  { gs with
    current_drawing_player_id := gs.current_guessing_player_id,
    current_guessing_player_id := gs.current_drawing_player_id,
    drawing_phase_active := true,
    guessing_active := false,
    drawing_submitted := false,
    strokes := [],
    current_turn_drawing_strokes := [],
    turn_number := gs.turn_number + 1,
    correct_guesses_this_turn := 0 }

/-- `all_target_green_indices_for_win` (main.py 549-555): the set of index
positions that are green on either key card, built by enumerating both
cards; Python's `set` is modelled as a deduplicated list. -/
def all_target_green_indices (key_card_a key_card_b : List String) : List Nat :=
  (((List.range key_card_a.length).filter (fun i => key_card_a.getD i "" == "green")) ++
    ((List.range key_card_b.length).filter (fun i => key_card_b.getD i "" == "green"))).dedup

/-- `revealed_as_green_count` (main.py 557-561): how many union-green indices
have a green reveal recorded under either perspective. -/
def revealed_as_green_count (key_card_a key_card_b : List String)
    (grid_reveal_status : List CardRevealStatus) : Nat :=
  (all_target_green_indices key_card_a key_card_b).countP (fun idx =>
    ((grid_reveal_status.getD idx emptyReveal).revealed_by_guesser_for_a == some "green") ||
    ((grid_reveal_status.getD idx emptyReveal).revealed_by_guesser_for_b == some "green"))

/-- Guess resolution (main.py 455-592), after the actor/phase/range guards
have passed.  The Python `if not (...): continue` guards are the `else gs`
branches of `handleGuessWord` below. -/
def resolveGuess (gs : GameState) (actor_client_id : String) (word_index : Nat) : GameState :=
  let clue_giver_is_player_a := gs.current_drawing_player_id = gs.player_a_id
  let guesser_is_player_a := some actor_client_id = gs.player_a_id
  let card_status_obj := gs.grid_reveal_status.getD word_index emptyReveal
  let guesser_key_card := if guesser_is_player_a then gs.key_card_a else gs.key_card_b
  let clue_giver_key_card := if clue_giver_is_player_a then gs.key_card_a else gs.key_card_b
  if guesser_key_card = [] ∨ clue_giver_key_card = [] then gs
  else if word_index < guesser_key_card.length ∧ word_index < clue_giver_key_card.length then
    let card_type_on_guesser_map := guesser_key_card.getD word_index ""
    let card_type_on_clue_giver_map := clue_giver_key_card.getD word_index ""
    if card_type_on_guesser_map = "assassin" ∧ card_type_on_clue_giver_map = "assassin" then
      { gs with
        game_over := true,
        winner := some "Players Lose! (Double Assassin)",
        grid_reveal_status := gs.grid_reveal_status.set word_index
          { card_status_obj with
            revealed_by_guesser_for_a := some "assassin",
            revealed_by_guesser_for_b := some "assassin" } }
    else if card_type_on_clue_giver_map = "assassin" then
      { gs with
        game_over := true,
        winner := some "Players Lose! (Assassin Revealed)",
        grid_reveal_status := gs.grid_reveal_status.set word_index
          (if clue_giver_is_player_a then
            { card_status_obj with revealed_by_guesser_for_a := some "assassin" }
          else
            { card_status_obj with revealed_by_guesser_for_b := some "assassin" }) }
    else
      let turn_ended_by_own_assassin := card_type_on_guesser_map = "assassin"
      let grid_reveal_status1 :=
        if turn_ended_by_own_assassin then gs.grid_reveal_status
        else gs.grid_reveal_status.set word_index
          (if clue_giver_is_player_a then
            { card_status_obj with
              revealed_by_guesser_for_a := some card_type_on_clue_giver_map }
          else
            { card_status_obj with
              revealed_by_guesser_for_b := some card_type_on_clue_giver_map })
      let correct1 :=
        if ¬turn_ended_by_own_assassin ∧ card_type_on_clue_giver_map = "green" then
          gs.correct_guesses_this_turn + 1
        else gs.correct_guesses_this_turn
      let turn_ended_this_guess :=
        turn_ended_by_own_assassin ∨ card_type_on_clue_giver_map = "neutral"
      let gs1 := { gs with
        grid_reveal_status := grid_reveal_status1,
        correct_guesses_this_turn := correct1 }
      if 15 ≤ revealed_as_green_count gs1.key_card_a gs1.key_card_b gs1.grid_reveal_status then
        { gs1 with game_over := true, winner := some "Players Win! (15 Green Words)" }
      else if turn_ended_this_guess then turnTransition gs1
      else gs1
  else gs

/-- `GUESS_WORD` handling (main.py 438-592): the actor/phase guard (449), the
index-range guard (452), the `grid_reveal_status[word_index]` read (456, an
out-of-range read raises and leaves the state unchanged) and the
already-revealed-for-this-perspective guard (461-471), then `resolveGuess`. -/
def handleGuessWord (gs : GameState) (actor_client_id : String) (word_index : Nat) :
    GameState :=
  if some actor_client_id = gs.current_guessing_player_id ∧ gs.guessing_active = true then
    if word_index < gs.grid_words.length then
      if word_index < gs.grid_reveal_status.length then
        if (if gs.current_drawing_player_id = gs.player_a_id then
              (gs.grid_reveal_status.getD word_index emptyReveal).revealed_by_guesser_for_a
                ≠ none
            else
              (gs.grid_reveal_status.getD word_index emptyReveal).revealed_by_guesser_for_b
                ≠ none) then gs
        else resolveGuess gs actor_client_id word_index
      else gs
    else gs
  else gs

/-- `END_GUESSING` handling (main.py 594-616). -/
def handleEndGuessing (gs : GameState) (actor_client_id : String) : GameState :=
  if some actor_client_id = gs.current_guessing_player_id ∧ gs.guessing_active = true ∧
      gs.game_over = false then
    turnTransition gs
  else gs

/-- `SUBMIT_DRAWING` handling (main.py 365-436).  The payload is the
`strokes` entry: `none` when missing or not a list, otherwise the list of
per-stroke validation results (`none` for a stroke that fails dict/point/
pydantic validation and is skipped, `some s` for one that validates). -/
def handleSubmitDrawing (gs : GameState) (actor_client_id : String)
    (payload_strokes : Option (List (Option Stroke))) : GameState :=
  if some actor_client_id = gs.current_drawing_player_id ∧
      gs.drawing_phase_active = true ∧ gs.drawing_submitted = false then
    let current_turn_drawing_strokes1 :=
      match payload_strokes with
      | some submitted =>
        if submitted.length > 0 then
          let validated_submitted_strokes := submitted.filterMap id
          if validated_submitted_strokes ≠ [] then validated_submitted_strokes
          else gs.current_turn_drawing_strokes
        else []
      | none => gs.current_turn_drawing_strokes
    { gs with
      current_turn_drawing_strokes := current_turn_drawing_strokes1,
      strokes := gs.strokes ++ current_turn_drawing_strokes1,
      drawing_phase_active := false,
      drawing_submitted := true,
      guessing_active := true }
  else gs

/-- Disconnect cleanup (the `finally` block, main.py 659-710): drop the
client, clear its player slot and any role pointer referencing it, then the
role-reassignment block; returns `none` when the last client left and the
room is deleted. -/
def handleDisconnect (gs : GameState) (established_client_id : String) : Option GameState :=
  let gs := { gs with clients := gs.clients.erase established_client_id }
  let gs :=
    if gs.player_a_id = some established_client_id then
      { gs with
        player_a_id := none,
        current_drawing_player_id :=
          if gs.current_drawing_player_id = some established_client_id then none
          else gs.current_drawing_player_id,
        current_guessing_player_id :=
          if gs.current_guessing_player_id = some established_client_id then none
          else gs.current_guessing_player_id }
    else if gs.player_b_id = some established_client_id then
      { gs with
        player_b_id := none,
        current_drawing_player_id :=
          if gs.current_drawing_player_id = some established_client_id then none
          else gs.current_drawing_player_id,
        current_guessing_player_id :=
          if gs.current_guessing_player_id = some established_client_id then none
          else gs.current_guessing_player_id }
    else gs
  let gs :=
    if (gs.player_a_id = none ∨ gs.player_b_id = none) ∧ gs.game_over = false then
      let gs :=
        if gs.current_drawing_player_id = none ∧ gs.player_a_id ≠ none then
          { gs with current_drawing_player_id := gs.player_a_id }
        else if gs.current_drawing_player_id = none ∧ gs.player_b_id ≠ none then
          { gs with current_drawing_player_id := gs.player_b_id }
        else gs
      if gs.current_guessing_player_id = none ∧ gs.player_b_id ≠ none ∧
          gs.player_b_id ≠ gs.current_drawing_player_id then
        { gs with current_guessing_player_id := gs.player_b_id }
      else if gs.current_guessing_player_id = none ∧ gs.player_a_id ≠ none ∧
          gs.player_a_id ≠ gs.current_drawing_player_id then
        { gs with current_guessing_player_id := gs.player_a_id }
      else gs
    else gs
  if gs.clients.isEmpty then none else some gs

/-- Room-id resolution at connect (main.py 191-204): case-insensitive lookup
of the requested id among registered rooms; when no room matches, a brand-new
game is created and registered under the requested id and the connection
proceeds.  The registry is modelled by its key list. -/
def resolveGameId (active_games_keys : List String) (game_id_path : String) :
    List String × String :=
  match active_games_keys.find? (fun k => k.toLower == game_id_path.toLower) with
  | some existing_game_id_key => (active_games_keys, existing_game_id_key)
  | none => (active_games_keys ++ [game_id_path], game_id_path)

/-! ## Spec-level accessors used to state the claims -/

/-- The current clue giver's key card (`clue_giver_key_card`, main.py 474). -/
def clueGiverCard (gs : GameState) : List String :=
  if gs.current_drawing_player_id = gs.player_a_id then gs.key_card_a else gs.key_card_b

/-- The guesser's own key card (`guesser_key_card`, main.py 473). -/
def guesserCard (gs : GameState) (actor_client_id : String) : List String :=
  if some actor_client_id = gs.player_a_id then gs.key_card_a else gs.key_card_b

/-- The reveal slot at `i` for the current clue giver's perspective
(main.py 461-467 chooses the field by `clue_giver_is_player_a`). -/
def perspectiveSlot (gs : GameState) (i : Nat) : Option String :=
  if gs.current_drawing_player_id = gs.player_a_id then
    (gs.grid_reveal_status.getD i emptyReveal).revealed_by_guesser_for_a
  else
    (gs.grid_reveal_status.getD i emptyReveal).revealed_by_guesser_for_b

/-! ## Concrete sample states for witnesses and failing inputs -/

/-- A concrete key-card pair: one possible draw of the generator
(shared greens 0-2, shared assassin 3, A-greens 4-9, B-greens 10-15,
A-assassins 16-17, B-assassins 18-19). -/
def sampleKeyCards : List String × List String :=
  generate_key_cards [0, 1, 2] 3 [4, 5, 6, 7, 8, 9] [10, 11, 12, 13, 14, 15]
    [16, 17] [18, 19]

/-- A concrete guessing-phase room: A drawing, B guessing, nothing revealed. -/
def sampleGuessingState : GameState :=
  { game_id := "quickfox1", clients := ["A", "B"], strokes := [],
    current_turn_drawing_strokes := [], grid_words := List.replicate 25 "word",
    key_card_a := sampleKeyCards.1, key_card_b := sampleKeyCards.2,
    player_a_id := some "A", player_b_id := some "B",
    grid_reveal_status := List.replicate 25 emptyReveal,
    current_drawing_player_id := some "A", current_guessing_player_id := some "B",
    drawing_phase_active := false, drawing_submitted := true, guessing_active := true,
    correct_guesses_this_turn := 0, turn_number := 1, game_over := false, winner := none }

/-- A concrete drawing-phase room: A drawing with one buffered stroke. -/
def sampleDrawingState : GameState :=
  { sampleGuessingState with
    drawing_phase_active := true, drawing_submitted := false, guessing_active := false,
    current_turn_drawing_strokes := [⟨"stroke-1", [[1, 2], [3, 4]], "#000000", 2, "pen"⟩] }

/-- Reveal record after the cooperative win: every union-green index revealed
green under both perspectives, everything else untouched. -/
def wonRevealStatus : List CardRevealStatus :=
  (List.range 25).map (fun i =>
    if (sampleKeyCards.1.getD i "" == "green") || (sampleKeyCards.2.getD i "" == "green") then
      (⟨some "green", some "green"⟩ : CardRevealStatus)
    else emptyReveal)

/-- The room right after the players won (game over, guessing still the
active phase flag, as the code leaves it). -/
def sampleWonState : GameState :=
  { sampleGuessingState with
    grid_reveal_status := wonRevealStatus,
    correct_guesses_this_turn := 1, turn_number := 3,
    game_over := true, winner := some "Players Win! (15 Green Words)" }

/-- The guessing-phase room after index 4 was already revealed green for the
current drawer's (A's) perspective. -/
def sampleRevealedState : GameState :=
  { sampleGuessingState with
    grid_reveal_status :=
      (List.replicate 25 emptyReveal).set 4 ⟨some "green", none⟩,
    correct_guesses_this_turn := 1 }

end SketchCodes

namespace SketchCodes

theorem setAll_length (positions : List Nat) (card : List String) (value : String) :
    (setAll card positions value).length = card.length := by
  induction positions generalizing card with
  | nil => rfl
  | cons p ps ih =>
    show (setAll (card.set p value) ps value).length = card.length
    rw [ih, List.length_set]

theorem getD_set (l : List String) (i n : Nat) (a d : String) (hn : n < l.length) :
    (l.set i a).getD n d = if i = n then a else l.getD n d := by
  rw [List.getD_eq_getElem _ _ (by simpa using hn), List.getElem_set,
    List.getD_eq_getElem _ _ hn]

theorem getD_setAll (positions : List Nat) (l : List String) (value d : String) (n : Nat)
    (hn : n < l.length) :
    (setAll l positions value).getD n d = if n ∈ positions then value else l.getD n d := by
  induction positions generalizing l with
  | nil => simp [setAll]
  | cons p ps ih =>
    show (setAll (l.set p value) ps value).getD n d = _
    rw [ih (l.set p value) (by simpa using hn), getD_set l p n value d hn]
    by_cases h1 : n ∈ ps
    · simp [h1]
    · rcases eq_or_ne p n with h2 | h2
      · simp [h1, h2]
      · simp [h1, h2, Ne.symm h2, List.mem_cons]

theorem getD_replicate_lt (n m : Nat) (a d : String) (h : m < n) :
    (List.replicate n a).getD m d = a := by
  rw [List.getD_eq_getElem _ _ (by simpa using h)]
  exact List.getElem_replicate ..

theorem generate_key_cards_fst_length (sg : List Nat) (sa : Nat) (ag bg aa ba : List Nat) :
    (generate_key_cards sg sa ag bg aa ba).1.length = 25 := by
  show (setAll (setAll ((setAll (List.replicate 25 "neutral") sg "green").set sa
    "assassin") ag "green") aa "assassin").length = 25
  rw [setAll_length, setAll_length, List.length_set, setAll_length, List.length_replicate]

theorem generate_key_cards_snd_length (sg : List Nat) (sa : Nat) (ag bg aa ba : List Nat) :
    (generate_key_cards sg sa ag bg aa ba).2.length = 25 := by
  show (setAll (setAll ((setAll (List.replicate 25 "neutral") sg "green").set sa
    "assassin") bg "green") ba "assassin").length = 25
  rw [setAll_length, setAll_length, List.length_set, setAll_length, List.length_replicate]

theorem generate_key_cards_fst_getD (sg : List Nat) (sa : Nat) (ag bg aa ba : List Nat)
    (n : Nat) (hn : n < 25) (d : String) :
    (generate_key_cards sg sa ag bg aa ba).1.getD n d = keyFun sg sa ag aa n := by
  show (setAll (setAll ((setAll (List.replicate 25 "neutral") sg "green").set sa
    "assassin") ag "green") aa "assassin").getD n d = _
  rw [getD_setAll _ _ _ _ _ (by rw [setAll_length, List.length_set, setAll_length,
        List.length_replicate]; exact hn),
    getD_setAll _ _ _ _ _ (by rw [List.length_set, setAll_length,
        List.length_replicate]; exact hn),
    getD_set _ _ _ _ _ (by rw [setAll_length, List.length_replicate]; exact hn),
    getD_setAll _ _ _ _ _ (by rw [List.length_replicate]; exact hn),
    getD_replicate_lt _ _ _ _ hn]
  rfl

theorem generate_key_cards_snd_getD (sg : List Nat) (sa : Nat) (ag bg aa ba : List Nat)
    (n : Nat) (hn : n < 25) (d : String) :
    (generate_key_cards sg sa ag bg aa ba).2.getD n d = keyFun sg sa bg ba n := by
  show (setAll (setAll ((setAll (List.replicate 25 "neutral") sg "green").set sa
    "assassin") bg "green") ba "assassin").getD n d = _
  rw [getD_setAll _ _ _ _ _ (by rw [setAll_length, List.length_set, setAll_length,
        List.length_replicate]; exact hn),
    getD_setAll _ _ _ _ _ (by rw [List.length_set, setAll_length,
        List.length_replicate]; exact hn),
    getD_set _ _ _ _ _ (by rw [setAll_length, List.length_replicate]; exact hn),
    getD_setAll _ _ _ _ _ (by rw [List.length_replicate]; exact hn),
    getD_replicate_lt _ _ _ _ hn]
  rfl

theorem eq_map_range_of_getD (l : List String) (f : Nat → String) (n : Nat)
    (hlen : l.length = n) (hf : ∀ i, i < n → l.getD i "" = f i) :
    l = (List.range n).map f := by
  apply List.ext_getElem (by simp [hlen])
  intro i h1 h2
  have hi : i < n := by simpa [hlen] using h1
  have hgd := hf i hi
  rw [List.getD_eq_getElem _ _ (by omega)] at hgd
  simp [hgd]

theorem count_map_range (f : Nat → String) (n : Nat) (v : String) :
    (((List.range n).map f).count v) = ((List.range n).filter (fun i => f i == v)).length := by
  rw [List.count, List.countP_map, List.countP_eq_length_filter]
  rfl

theorem length_filter_range_eq_card (n : Nat) (q : Nat → Bool) :
    ((List.range n).filter q).length = ((List.range n).filter q).toFinset.card :=
  (List.toFinset_card_of_nodup ((List.nodup_range n).filter q)).symm

theorem length_filter_range_eq_card_finset (n : Nat) (q : Nat → Bool) (s : Finset Nat)
    (h : ∀ i, i < n ∧ q i = true ↔ i ∈ s) :
    ((List.range n).filter q).length = s.card := by
  rw [length_filter_range_eq_card]
  congr 1
  ext i
  simp only [List.mem_toFinset, List.mem_filter, List.mem_range]
  exact h i

theorem keyFun_eq_green_iff (sg : List Nat) (sa : Nat) (ug ua : List Nat) (n : Nat)
    (hug_ua : ug.Disjoint ua) (hsg_ua : sg.Disjoint ua) (hsg_sa : sa ∉ sg) :
    keyFun sg sa ug ua n = "green" ↔ n ∈ ug ∨ n ∈ sg := by
  unfold keyFun
  by_cases hua : n ∈ ua
  · have h1 : n ∉ ug := fun h => hug_ua h hua
    have h2 : n ∉ sg := fun h => hsg_ua h hua
    simp [hua, h1, h2]
  · simp only [hua, if_false]
    by_cases hug : n ∈ ug
    · simp [hug]
    · simp only [hug, if_false]
      by_cases hsa : sa = n
      · have h2 : n ∉ sg := hsa ▸ hsg_sa
        simp [hsa, h2, hug]
      · by_cases hsg : n ∈ sg <;> simp [hsa, hsg, hug]

theorem keyFun_eq_assassin_iff (sg : List Nat) (sa : Nat) (ug ua : List Nat) (n : Nat)
    (hsa_ug : sa ∉ ug) :
    keyFun sg sa ug ua n = "assassin" ↔ n ∈ ua ∨ sa = n := by
  unfold keyFun
  by_cases hua : n ∈ ua
  · simp [hua]
  · simp only [hua, if_false]
    by_cases hug : n ∈ ug
    · have h1 : ¬ sa = n := fun h => hsa_ug (h ▸ hug)
      simp [hug, h1, hua]
    · simp only [hug, if_false]
      by_cases hsa : sa = n
      · simp [hsa]
      · by_cases hsg : n ∈ sg <;> simp [hsa, hsg, hua]

theorem count_three_partition (l : List String)
    (h : ∀ x ∈ l, x = "green" ∨ x = "assassin" ∨ x = "neutral") :
    l.count "green" + l.count "assassin" + l.count "neutral" = l.length := by
  induction l with
  | nil => simp
  | cons a l ih =>
    have ha := h a (by simp)
    have ih' := ih (fun x hx => h x (by simp [hx]))
    rcases ha with h1 | h1 | h1 <;> subst h1 <;>
      simp [List.count_cons] <;> omega

theorem keyFun_mem_three (sg : List Nat) (sa : Nat) (ug ua : List Nat) (n : Nat) :
    keyFun sg sa ug ua n = "green" ∨ keyFun sg sa ug ua n = "assassin" ∨
      keyFun sg sa ug ua n = "neutral" := by
  unfold keyFun
  split_ifs <;> simp

theorem union_card_of_nodup_disjoint (l l' : List Nat) (hl : l.Nodup) (hl' : l'.Nodup)
    (hd : l.Disjoint l') :
    (l.toFinset ∪ l'.toFinset).card = l.length + l'.length := by
  rw [Finset.card_union_of_disjoint (by rw [List.disjoint_toFinset_iff_disjoint]; exact hd),
    List.toFinset_card_of_nodup hl, List.toFinset_card_of_nodup hl']

theorem count_green_of_keyFun (sg : List Nat) (sa : Nat) (ug ua : List Nat) (l : List String)
    (hlen : l.length = 25)
    (hptw : ∀ i, i < 25 → l.getD i "" = keyFun sg sa ug ua i)
    (hsgnd : sg.Nodup) (hugnd : ug.Nodup) (hdisj : ug.Disjoint sg)
    (hug_ua : ug.Disjoint ua) (hsg_ua : sg.Disjoint ua) (hsg_sa : sa ∉ sg)
    (hsg_lt : ∀ x ∈ sg, x < 25) (hug_lt : ∀ x ∈ ug, x < 25)
    (h3 : sg.length = 3) (h6 : ug.length = 6) :
    l.count "green" = 9 := by
  rw [eq_map_range_of_getD l (keyFun sg sa ug ua) 25 hlen hptw, count_map_range,
    length_filter_range_eq_card_finset 25 _ (ug.toFinset ∪ sg.toFinset) ?_,
    union_card_of_nodup_disjoint ug sg hugnd hsgnd hdisj, h3, h6]
  intro i
  simp only [beq_iff_eq, keyFun_eq_green_iff sg sa ug ua i hug_ua hsg_ua hsg_sa,
    Finset.mem_union, List.mem_toFinset]
  constructor
  · exact fun h => h.2
  · rintro (h | h)
    · exact ⟨hug_lt i h, Or.inl h⟩
    · exact ⟨hsg_lt i h, Or.inr h⟩

theorem count_assassin_of_keyFun (sg : List Nat) (sa : Nat) (ug ua : List Nat)
    (l : List String) (hlen : l.length = 25)
    (hptw : ∀ i, i < 25 → l.getD i "" = keyFun sg sa ug ua i)
    (huand : ua.Nodup) (hsa_ug : sa ∉ ug) (hsa_ua : sa ∉ ua)
    (hua_lt : ∀ x ∈ ua, x < 25) (hsa_lt : sa < 25)
    (h2 : ua.length = 2) :
    l.count "assassin" = 3 := by
  rw [eq_map_range_of_getD l (keyFun sg sa ug ua) 25 hlen hptw, count_map_range,
    length_filter_range_eq_card_finset 25 _ (ua.toFinset ∪ {sa}) ?_]
  · rw [Finset.card_union_of_disjoint (by simp [hsa_ua]),
      List.toFinset_card_of_nodup huand, h2]
    simp
  · intro i
    simp only [beq_iff_eq, keyFun_eq_assassin_iff sg sa ug ua i hsa_ug,
      Finset.mem_union, List.mem_toFinset, Finset.mem_singleton]
    constructor
    · rintro ⟨hi, h | h⟩
      · exact Or.inl h
      · exact Or.inr h.symm
    · rintro (h | h)
      · exact ⟨hua_lt i h, Or.inl h⟩
      · exact ⟨h ▸ hsa_lt, Or.inr h.symm⟩

theorem count_neutral_of_keyFun (sg : List Nat) (sa : Nat) (ug ua : List Nat)
    (l : List String) (hlen : l.length = 25)
    (hptw : ∀ i, i < 25 → l.getD i "" = keyFun sg sa ug ua i)
    (hgreen : l.count "green" = 9) (hassassin : l.count "assassin" = 3) :
    l.count "neutral" = 13 := by
  have hmem : ∀ x ∈ l, x = "green" ∨ x = "assassin" ∨ x = "neutral" := by
    intro x hx
    obtain ⟨i, hi, rfl⟩ := List.mem_iff_getElem.mp hx
    have hi25 : i < 25 := by omega
    have := hptw i hi25
    rw [List.getD_eq_getElem _ _ hi] at this
    rw [this]
    exact keyFun_mem_three sg sa ug ua i
  have := count_three_partition l hmem
  omega

theorem validSample_facts (sg : List Nat) (sa : Nat) (ag bg aa ba : List Nat)
    (h : ValidSample sg sa ag bg aa ba) :
    sg.Nodup ∧ ag.Nodup ∧ bg.Nodup ∧ aa.Nodup ∧ ba.Nodup ∧
    sa ∉ sg ∧ sa ∉ ag ∧ sa ∉ bg ∧ sa ∉ aa ∧ sa ∉ ba ∧
    sg.Disjoint ag ∧ sg.Disjoint bg ∧ sg.Disjoint aa ∧ sg.Disjoint ba ∧
    ag.Disjoint bg ∧ ag.Disjoint aa ∧ ag.Disjoint ba ∧
    bg.Disjoint aa ∧ bg.Disjoint ba ∧ aa.Disjoint ba := by
  obtain ⟨-, -, -, -, -, hnd, -⟩ := h
  rw [List.nodup_append] at hnd
  obtain ⟨hsg, hcons, hdsg⟩ := hnd
  rw [List.nodup_cons] at hcons
  obtain ⟨hsaM, hM⟩ := hcons
  rw [List.nodup_append] at hM
  obtain ⟨hM1, hba, hd_ba⟩ := hM
  rw [List.nodup_append] at hM1
  obtain ⟨hM2, haa, hd_aa⟩ := hM1
  rw [List.nodup_append] at hM2
  obtain ⟨hag, hbg, hd_bg⟩ := hM2
  simp only [List.mem_append, not_or] at hsaM
  obtain ⟨⟨⟨hsa_ag, hsa_bg⟩, hsa_aa⟩, hsa_ba⟩ := hsaM
  refine ⟨hsg, hag, hbg, haa, hba,
    fun hmem => hdsg hmem (List.mem_cons_self sa _),
    hsa_ag, hsa_bg, hsa_aa, hsa_ba,
    fun a ha hb => hdsg ha (by simp [hb]),
    fun a ha hb => hdsg ha (by simp [hb]),
    fun a ha hb => hdsg ha (by simp [hb]),
    fun a ha hb => hdsg ha (by simp [hb]),
    hd_bg,
    fun a ha hb => hd_aa (by simp [ha]) hb,
    fun a ha hb => hd_ba (by simp [ha]) hb,
    fun a ha hb => hd_aa (by simp [ha]) hb,
    fun a ha hb => hd_ba (by simp [ha]) hb,
    fun a ha hb => hd_ba (by simp [ha]) hb⟩

theorem validSample_bounds (sg : List Nat) (sa : Nat) (ag bg aa ba : List Nat)
    (h : ValidSample sg sa ag bg aa ba) :
    (∀ x ∈ sg, x < 25) ∧ sa < 25 ∧ (∀ x ∈ ag, x < 25) ∧ (∀ x ∈ bg, x < 25) ∧
    (∀ x ∈ aa, x < 25) ∧ (∀ x ∈ ba, x < 25) := by
  obtain ⟨-, -, -, -, -, -, hlt⟩ := h
  refine ⟨fun x hx => hlt x (by simp [hx]), hlt sa (by simp),
    fun x hx => hlt x (by simp [hx]), fun x hx => hlt x (by simp [hx]),
    fun x hx => hlt x (by simp [hx]), fun x hx => hlt x (by simp [hx])⟩

theorem shared_green_card (sg : List Nat) (sa : Nat) (ag bg aa ba : List Nat)
    (h : ValidSample sg sa ag bg aa ba) :
    ((List.range 25).filter (fun i =>
      ((generate_key_cards sg sa ag bg aa ba).1.getD i "" == "green") &&
      ((generate_key_cards sg sa ag bg aa ba).2.getD i "" == "green"))).length = 3 := by
  obtain ⟨hsg, hag, hbg, haa, hba, hsg_sa, hsa_ag, hsa_bg, hsa_aa, hsa_ba,
    hsg_ag, hsg_bg, hsg_aa, hsg_ba, hag_bg, hag_aa, hag_ba, hbg_aa, hbg_ba, haa_ba⟩ :=
    validSample_facts sg sa ag bg aa ba h
  obtain ⟨hsg_lt, hsa_lt, hag_lt, hbg_lt, haa_lt, hba_lt⟩ :=
    validSample_bounds sg sa ag bg aa ba h
  obtain ⟨h3, -, -, -, -, -, -⟩ := h
  rw [length_filter_range_eq_card_finset 25 _ sg.toFinset ?_,
    List.toFinset_card_of_nodup hsg, h3]
  intro i
  simp only [Bool.and_eq_true, beq_iff_eq, List.mem_toFinset]
  constructor
  · rintro ⟨hi, hqa, hqb⟩
    rw [generate_key_cards_fst_getD sg sa ag bg aa ba i hi _,
      keyFun_eq_green_iff sg sa ag aa i hag_aa hsg_aa hsg_sa] at hqa
    rw [generate_key_cards_snd_getD sg sa ag bg aa ba i hi _,
      keyFun_eq_green_iff sg sa bg ba i hbg_ba hsg_ba hsg_sa] at hqb
    rcases hqa with ha | ha
    · rcases hqb with hb | hb
      · exact absurd hb (fun hb => hag_bg ha hb)
      · exact absurd hb (fun hb => (hsg_ag hb) ha)
    · exact ha
  · intro hi
    have hlt : i < 25 := hsg_lt i hi
    refine ⟨hlt, ?_, ?_⟩
    · rw [generate_key_cards_fst_getD sg sa ag bg aa ba i hlt _,
        keyFun_eq_green_iff sg sa ag aa i hag_aa hsg_aa hsg_sa]
      exact Or.inr hi
    · rw [generate_key_cards_snd_getD sg sa ag bg aa ba i hlt _,
        keyFun_eq_green_iff sg sa bg ba i hbg_ba hsg_ba hsg_sa]
      exact Or.inr hi

theorem shared_assassin_card (sg : List Nat) (sa : Nat) (ag bg aa ba : List Nat)
    (h : ValidSample sg sa ag bg aa ba) :
    ((List.range 25).filter (fun i =>
      ((generate_key_cards sg sa ag bg aa ba).1.getD i "" == "assassin") &&
      ((generate_key_cards sg sa ag bg aa ba).2.getD i "" == "assassin"))).length = 1 := by
  obtain ⟨hsg, hag, hbg, haa, hba, hsg_sa, hsa_ag, hsa_bg, hsa_aa, hsa_ba,
    hsg_ag, hsg_bg, hsg_aa, hsg_ba, hag_bg, hag_aa, hag_ba, hbg_aa, hbg_ba, haa_ba⟩ :=
    validSample_facts sg sa ag bg aa ba h
  obtain ⟨hsg_lt, hsa_lt, hag_lt, hbg_lt, haa_lt, hba_lt⟩ :=
    validSample_bounds sg sa ag bg aa ba h
  rw [length_filter_range_eq_card_finset 25 _ {sa} ?_, Finset.card_singleton]
  intro i
  simp only [Bool.and_eq_true, beq_iff_eq, Finset.mem_singleton]
  constructor
  · rintro ⟨hi, hqa, hqb⟩
    rw [generate_key_cards_fst_getD sg sa ag bg aa ba i hi _,
      keyFun_eq_assassin_iff sg sa ag aa i hsa_ag] at hqa
    rw [generate_key_cards_snd_getD sg sa ag bg aa ba i hi _,
      keyFun_eq_assassin_iff sg sa bg ba i hsa_bg] at hqb
    rcases hqa with ha | ha
    · rcases hqb with hb | hb
      · exact absurd hb (fun hb => haa_ba ha hb)
      · exact absurd ha (hb ▸ hsa_aa)
    · exact ha.symm
  · intro hi
    rw [hi]
    refine ⟨hsa_lt, ?_, ?_⟩
    · rw [generate_key_cards_fst_getD sg sa ag bg aa ba sa hsa_lt _,
        keyFun_eq_assassin_iff sg sa ag aa sa hsa_ag]
      exact Or.inr rfl
    · rw [generate_key_cards_snd_getD sg sa ag bg aa ba sa hsa_lt _,
        keyFun_eq_assassin_iff sg sa bg ba sa hsa_bg]
      exact Or.inr rfl

/-- On generated key cards a slot that is green on one card is never assassin
on the other: unique greens of one card are sampled from the pool before the
other card's unique assassins, and the shared assassin is drawn after the
shared greens. -/
theorem generated_green_not_assassin (sg : List Nat) (sa : Nat) (ag bg aa ba : List Nat)
    (h : ValidSample sg sa ag bg aa ba) (i : Nat) (hi : i < 25) :
    ((generate_key_cards sg sa ag bg aa ba).1.getD i "" = "green" →
      ¬(generate_key_cards sg sa ag bg aa ba).2.getD i "" = "assassin") ∧
    ((generate_key_cards sg sa ag bg aa ba).2.getD i "" = "green" →
      ¬(generate_key_cards sg sa ag bg aa ba).1.getD i "" = "assassin") := by
  obtain ⟨hsg, hag, hbg, haa, hba, hsg_sa, hsa_ag, hsa_bg, hsa_aa, hsa_ba,
    hsg_ag, hsg_bg, hsg_aa, hsg_ba, hag_bg, hag_aa, hag_ba, hbg_aa, hbg_ba, haa_ba⟩ :=
    validSample_facts sg sa ag bg aa ba h
  rw [generate_key_cards_fst_getD sg sa ag bg aa ba i hi _,
    generate_key_cards_snd_getD sg sa ag bg aa ba i hi _,
    keyFun_eq_green_iff sg sa ag aa i hag_aa hsg_aa hsg_sa,
    keyFun_eq_green_iff sg sa bg ba i hbg_ba hsg_ba hsg_sa,
    keyFun_eq_assassin_iff sg sa ag aa i hsa_ag,
    keyFun_eq_assassin_iff sg sa bg ba i hsa_bg]
  constructor
  · rintro (hg | hg) (ha | ha)
    · exact hag_ba hg ha
    · exact hsa_ag (ha ▸ hg)
    · exact hsg_ba hg ha
    · exact hsg_sa (ha ▸ hg)
  · rintro (hg | hg) (ha | ha)
    · exact hbg_aa hg ha
    · exact hsa_bg (ha ▸ hg)
    · exact hsg_aa hg ha
    · exact hsg_sa (ha ▸ hg)

/-- C1: For every key-card pair returned by the key card generator — i.e. for
every sample its pool-based without-replacement randomness can draw — each of
the two 25-slot cards has exactly 9 "green", 3 "assassin" and 13 "neutral"
slots; exactly 3 indices are green on both cards and exactly 1 index is
assassin on both cards (shared positions are by construction identical across
the two cards). -/
theorem C1_generate_key_cards_counts (sg : List Nat) (sa : Nat) (ag bg aa ba : List Nat)
    (h : ValidSample sg sa ag bg aa ba) :
    (generate_key_cards sg sa ag bg aa ba).1.count "green" = 9 ∧
    (generate_key_cards sg sa ag bg aa ba).1.count "assassin" = 3 ∧
    (generate_key_cards sg sa ag bg aa ba).1.count "neutral" = 13 ∧
    (generate_key_cards sg sa ag bg aa ba).2.count "green" = 9 ∧
    (generate_key_cards sg sa ag bg aa ba).2.count "assassin" = 3 ∧
    (generate_key_cards sg sa ag bg aa ba).2.count "neutral" = 13 ∧
    ((List.range 25).filter (fun i =>
      ((generate_key_cards sg sa ag bg aa ba).1.getD i "" == "green") &&
      ((generate_key_cards sg sa ag bg aa ba).2.getD i "" == "green"))).length = 3 ∧
    ((List.range 25).filter (fun i =>
      ((generate_key_cards sg sa ag bg aa ba).1.getD i "" == "assassin") &&
      ((generate_key_cards sg sa ag bg aa ba).2.getD i "" == "assassin"))).length = 1 := by
  obtain ⟨hsg, hag, hbg, haa, hba, hsg_sa, hsa_ag, hsa_bg, hsa_aa, hsa_ba,
    hsg_ag, hsg_bg, hsg_aa, hsg_ba, hag_bg, hag_aa, hag_ba, hbg_aa, hbg_ba, haa_ba⟩ :=
    validSample_facts sg sa ag bg aa ba h
  obtain ⟨hsg_lt, hsa_lt, hag_lt, hbg_lt, haa_lt, hba_lt⟩ :=
    validSample_bounds sg sa ag bg aa ba h
  have h3 := h.1
  have h6a := h.2.1
  have h6b := h.2.2.1
  have h2a := h.2.2.2.1
  have h2b := h.2.2.2.2.1
  have hga : (generate_key_cards sg sa ag bg aa ba).1.count "green" = 9 :=
    count_green_of_keyFun sg sa ag aa _ (generate_key_cards_fst_length sg sa ag bg aa ba)
      (fun i hi => generate_key_cards_fst_getD sg sa ag bg aa ba i hi "")
      hsg hag hsg_ag.symm hag_aa hsg_aa hsg_sa hsg_lt hag_lt h3 h6a
  have haaa : (generate_key_cards sg sa ag bg aa ba).1.count "assassin" = 3 :=
    count_assassin_of_keyFun sg sa ag aa _ (generate_key_cards_fst_length sg sa ag bg aa ba)
      (fun i hi => generate_key_cards_fst_getD sg sa ag bg aa ba i hi "")
      haa hsa_ag hsa_aa haa_lt hsa_lt h2a
  have hgb : (generate_key_cards sg sa ag bg aa ba).2.count "green" = 9 :=
    count_green_of_keyFun sg sa bg ba _ (generate_key_cards_snd_length sg sa ag bg aa ba)
      (fun i hi => generate_key_cards_snd_getD sg sa ag bg aa ba i hi "")
      hsg hbg hsg_bg.symm hbg_ba hsg_ba hsg_sa hsg_lt hbg_lt h3 h6b
  have hab : (generate_key_cards sg sa ag bg aa ba).2.count "assassin" = 3 :=
    count_assassin_of_keyFun sg sa bg ba _ (generate_key_cards_snd_length sg sa ag bg aa ba)
      (fun i hi => generate_key_cards_snd_getD sg sa ag bg aa ba i hi "")
      hba hsa_bg hsa_ba hba_lt hsa_lt h2b
  refine ⟨hga, haaa, ?_, hgb, hab, ?_, shared_green_card sg sa ag bg aa ba h,
    shared_assassin_card sg sa ag bg aa ba h⟩
  · exact count_neutral_of_keyFun sg sa ag aa _
      (generate_key_cards_fst_length sg sa ag bg aa ba)
      (fun i hi => generate_key_cards_fst_getD sg sa ag bg aa ba i hi "") hga haaa
  · exact count_neutral_of_keyFun sg sa bg ba _
      (generate_key_cards_snd_length sg sa ag bg aa ba)
      (fun i hi => generate_key_cards_snd_getD sg sa ag bg aa ba i hi "") hgb hab

/-- Witness for C1 at the concrete sample 3+1+6+6+2+2 over indices 0..19. -/
theorem C1_generate_key_cards_counts_witness :
    ValidSample [0, 1, 2] 3 [4, 5, 6, 7, 8, 9] [10, 11, 12, 13, 14, 15] [16, 17] [18, 19] ∧
    ((generate_key_cards [0, 1, 2] 3 [4, 5, 6, 7, 8, 9] [10, 11, 12, 13, 14, 15]
        [16, 17] [18, 19]).1.count "green" = 9 ∧
      (generate_key_cards [0, 1, 2] 3 [4, 5, 6, 7, 8, 9] [10, 11, 12, 13, 14, 15]
        [16, 17] [18, 19]).1.count "assassin" = 3 ∧
      (generate_key_cards [0, 1, 2] 3 [4, 5, 6, 7, 8, 9] [10, 11, 12, 13, 14, 15]
        [16, 17] [18, 19]).1.count "neutral" = 13 ∧
      (generate_key_cards [0, 1, 2] 3 [4, 5, 6, 7, 8, 9] [10, 11, 12, 13, 14, 15]
        [16, 17] [18, 19]).2.count "green" = 9 ∧
      (generate_key_cards [0, 1, 2] 3 [4, 5, 6, 7, 8, 9] [10, 11, 12, 13, 14, 15]
        [16, 17] [18, 19]).2.count "assassin" = 3 ∧
      (generate_key_cards [0, 1, 2] 3 [4, 5, 6, 7, 8, 9] [10, 11, 12, 13, 14, 15]
        [16, 17] [18, 19]).2.count "neutral" = 13 ∧
      ((List.range 25).filter (fun i =>
        ((generate_key_cards [0, 1, 2] 3 [4, 5, 6, 7, 8, 9] [10, 11, 12, 13, 14, 15]
          [16, 17] [18, 19]).1.getD i "" == "green") &&
        ((generate_key_cards [0, 1, 2] 3 [4, 5, 6, 7, 8, 9] [10, 11, 12, 13, 14, 15]
          [16, 17] [18, 19]).2.getD i "" == "green"))).length = 3 ∧
      ((List.range 25).filter (fun i =>
        ((generate_key_cards [0, 1, 2] 3 [4, 5, 6, 7, 8, 9] [10, 11, 12, 13, 14, 15]
          [16, 17] [18, 19]).1.getD i "" == "assassin") &&
        ((generate_key_cards [0, 1, 2] 3 [4, 5, 6, 7, 8, 9] [10, 11, 12, 13, 14, 15]
          [16, 17] [18, 19]).2.getD i "" == "assassin"))).length = 1) :=
  ⟨by unfold ValidSample; decide,
    C1_generate_key_cards_counts [0, 1, 2] 3 [4, 5, 6, 7, 8, 9] [10, 11, 12, 13, 14, 15]
      [16, 17] [18, 19] (by unfold ValidSample; decide)⟩

/-! ## Generic list-update lemmas reused across the guess-handler claims -/

theorem getD_set_poly {α : Type} (l : List α) (i n : Nat) (a d : α) (hn : n < l.length) :
    (l.set i a).getD n d = if i = n then a else l.getD n d := by
  rw [List.getD_eq_getElem _ _ (by simpa using hn), List.getElem_set,
    List.getD_eq_getElem _ _ hn]

theorem getD_set_self {α : Type} (l : List α) (i : Nat) (a d : α) (hi : i < l.length) :
    (l.set i a).getD i d = a := by
  rw [getD_set_poly l i i a d hi, if_pos rfl]

theorem getD_set_ne {α : Type} (l : List α) (i n : Nat) (a d : α) (h : i ≠ n) :
    (l.set i a).getD n d = l.getD n d := by
  by_cases hn : n < l.length
  · rw [getD_set_poly l i n a d hn, if_neg h]
  · rw [List.getD_eq_default _ _ (by simp; omega),
      List.getD_eq_default _ _ (by omega)]

/-- Writing a reveal status whose green-flags agree with the slot's old value
does not change the union-green reveal count the win check computes. -/
theorem revealed_as_green_count_set_eq (ka kb : List String)
    (rs : List CardRevealStatus) (i : Nat) (s : CardRevealStatus)
    (hi : i < rs.length)
    (ha : (s.revealed_by_guesser_for_a == some "green") =
          ((rs.getD i emptyReveal).revealed_by_guesser_for_a == some "green"))
    (hb : (s.revealed_by_guesser_for_b == some "green") =
          ((rs.getD i emptyReveal).revealed_by_guesser_for_b == some "green")) :
    revealed_as_green_count ka kb (rs.set i s) = revealed_as_green_count ka kb rs := by
  unfold revealed_as_green_count
  apply List.countP_congr
  intro idx _
  by_cases hii : i = idx
  · subst hii
    rw [getD_set_self rs i s emptyReveal hi, ha, hb]
  · rw [getD_set_ne rs i idx s emptyReveal hii]

/-- Under the accept guards `handleGuessWord` runs `resolveGuess`. -/
theorem handleGuessWord_accepted (gs : GameState) (actor : String) (i : Nat)
    (hguesser : some actor = gs.current_guessing_player_id)
    (hactive : gs.guessing_active = true)
    (hrange : i < gs.grid_words.length)
    (hrlen : i < gs.grid_reveal_status.length)
    (hslot : perspectiveSlot gs i = none) :
    handleGuessWord gs actor i = resolveGuess gs actor i := by
  unfold handleGuessWord
  unfold perspectiveSlot at hslot
  rw [if_pos ⟨hguesser, hactive⟩, if_pos hrange, if_pos hrlen]
  by_cases hcga : gs.current_drawing_player_id = gs.player_a_id
  · simp only [if_pos hcga] at hslot
    rw [List.getD_eq_getElem?_getD] at hslot
    exact if_neg (by simp [hcga, hslot])
  · simp only [if_neg hcga] at hslot
    rw [List.getD_eq_getElem?_getD] at hslot
    exact if_neg (by simp [hcga, hslot])

/-- C2: resolution precedence of an accepted guess (actor is the current
guesser, guessing active, index in range, drawer-perspective slot unset) on
the three assassin configurations: double assassin → loss and the
perspective slot marked assassin; drawer-card-only assassin → loss and the
slot marked assassin; guesser-card-only assassin → the turn ends at once,
`game_over` stays false, and no reveal slot is written.  The last case
additionally assumes the game is not already over and the union-green reveal
count is below 15, which hold in every reachable guessing state. -/
theorem C2_guess_assassin_cases (gs : GameState) (actor : String) (i : Nat)
    (hguesser : some actor = gs.current_guessing_player_id)
    (hactive : gs.guessing_active = true)
    (hwords : gs.grid_words.length = 25)
    (hrs : gs.grid_reveal_status.length = 25)
    (hka : gs.key_card_a.length = 25)
    (hkb : gs.key_card_b.length = 25)
    (hi : i < 25)
    (hslot : perspectiveSlot gs i = none) :
    ((guesserCard gs actor).getD i "" = "assassin" ∧
        (clueGiverCard gs).getD i "" = "assassin" →
      (handleGuessWord gs actor i).game_over = true ∧
      (handleGuessWord gs actor i).winner = some "Players Lose! (Double Assassin)" ∧
      perspectiveSlot (handleGuessWord gs actor i) i = some "assassin") ∧
    ((clueGiverCard gs).getD i "" = "assassin" ∧
        ¬(guesserCard gs actor).getD i "" = "assassin" →
      (handleGuessWord gs actor i).game_over = true ∧
      (handleGuessWord gs actor i).winner = some "Players Lose! (Assassin Revealed)" ∧
      perspectiveSlot (handleGuessWord gs actor i) i = some "assassin") ∧
    ((guesserCard gs actor).getD i "" = "assassin" ∧
        ¬(clueGiverCard gs).getD i "" = "assassin" →
      gs.game_over = false →
      revealed_as_green_count gs.key_card_a gs.key_card_b gs.grid_reveal_status < 15 →
      (handleGuessWord gs actor i).game_over = false ∧
      (handleGuessWord gs actor i).grid_reveal_status = gs.grid_reveal_status ∧
      (handleGuessWord gs actor i).turn_number = gs.turn_number + 1 ∧
      (handleGuessWord gs actor i).guessing_active = false ∧
      (handleGuessWord gs actor i).drawing_phase_active = true) := by
  have hgw := handleGuessWord_accepted gs actor i hguesser hactive (by omega) (by omega) hslot
  have hglen :
      (if some actor = gs.player_a_id then gs.key_card_a else gs.key_card_b).length = 25 := by
    by_cases h : some actor = gs.player_a_id <;> simp [h, hka, hkb]
  have hclen :
      (if gs.current_drawing_player_id = gs.player_a_id then gs.key_card_a
        else gs.key_card_b).length = 25 := by
    by_cases h : gs.current_drawing_player_id = gs.player_a_id <;> simp [h, hka, hkb]
  have hcond0 :
      ¬((if some actor = gs.player_a_id then gs.key_card_a else gs.key_card_b) = [] ∨
        (if gs.current_drawing_player_id = gs.player_a_id then gs.key_card_a
          else gs.key_card_b) = []) := by
    rintro (he | he)
    · rw [he] at hglen
      simp at hglen
    · rw [he] at hclen
      simp at hclen
  have hcond1 :
      i < (if some actor = gs.player_a_id then gs.key_card_a else gs.key_card_b).length ∧
      i < (if gs.current_drawing_player_id = gs.player_a_id then gs.key_card_a
        else gs.key_card_b).length := ⟨by omega, by omega⟩
  have hirs : i < gs.grid_reveal_status.length := by omega
  refine ⟨?_, ?_, ?_⟩
  · rintro ⟨hg, hc⟩
    unfold guesserCard at hg
    unfold clueGiverCard at hc
    rw [hgw]
    simp only [resolveGuess]
    rw [if_neg hcond0, if_pos hcond1, if_pos ⟨hg, hc⟩]
    refine ⟨rfl, rfl, ?_⟩
    unfold perspectiveSlot
    dsimp only
    split
    · rw [getD_set_self _ _ _ _ hirs]
    · rw [getD_set_self _ _ _ _ hirs]
  · rintro ⟨hc, hgne⟩
    unfold guesserCard at hgne
    unfold clueGiverCard at hc
    rw [hgw]
    simp only [resolveGuess]
    rw [if_neg hcond0, if_pos hcond1, if_neg (fun h => hgne h.1), if_pos hc]
    refine ⟨rfl, rfl, ?_⟩
    unfold perspectiveSlot
    dsimp only
    split
    case isTrue h => rw [getD_set_self _ _ _ _ hirs]
    case isFalse h => rw [getD_set_self _ _ _ _ hirs]
  · rintro ⟨hg, hcne⟩ hgo hwin
    unfold guesserCard at hg
    unfold clueGiverCard at hcne
    rw [hgw]
    simp only [resolveGuess]
    have hdneg :
        ¬((if some actor = gs.player_a_id then gs.key_card_a
            else gs.key_card_b).getD i "" = "assassin" ∧
          (if gs.current_drawing_player_id = gs.player_a_id then gs.key_card_a
            else gs.key_card_b).getD i "" = "assassin") := fun h => hcne h.2
    rw [if_neg hcond0, if_pos hcond1, if_neg hdneg, if_neg hcne, if_pos hg]
    have hwin' :
        ¬15 ≤ revealed_as_green_count gs.key_card_a gs.key_card_b gs.grid_reveal_status := by
      omega
    rw [if_neg hwin', if_pos (Or.inl hg)]
    unfold turnTransition
    exact ⟨hgo, rfl, rfl, rfl, rfl⟩

/-- C3: on generated key cards, an accepted guess at an index that is green on
the current drawer's key card increments `correct_guesses_this_turn` by one
and leaves the guessing phase active with no turn transition; and any
accepted non-fatal guess (drawer's card not assassin there) whose resulting
union-green reveal count reaches 15 sets `game_over` with the win outcome. -/
theorem C3_green_guess_and_win_condition (sg : List Nat) (sa : Nat)
    (ag bg aa ba : List Nat) (gs : GameState) (actor : String) (i : Nat)
    (hvs : ValidSample sg sa ag bg aa ba)
    (hkagen : gs.key_card_a = (generate_key_cards sg sa ag bg aa ba).1)
    (hkbgen : gs.key_card_b = (generate_key_cards sg sa ag bg aa ba).2)
    (hguesser : some actor = gs.current_guessing_player_id)
    (hactive : gs.guessing_active = true)
    (hwords : gs.grid_words.length = 25)
    (hrs : gs.grid_reveal_status.length = 25)
    (hi : i < 25)
    (hslot : perspectiveSlot gs i = none) :
    ((clueGiverCard gs).getD i "" = "green" →
      (handleGuessWord gs actor i).correct_guesses_this_turn =
        gs.correct_guesses_this_turn + 1 ∧
      (handleGuessWord gs actor i).guessing_active = true ∧
      (handleGuessWord gs actor i).drawing_phase_active = gs.drawing_phase_active ∧
      (handleGuessWord gs actor i).turn_number = gs.turn_number) ∧
    (¬(clueGiverCard gs).getD i "" = "assassin" →
      15 ≤ revealed_as_green_count gs.key_card_a gs.key_card_b
        (handleGuessWord gs actor i).grid_reveal_status →
      (handleGuessWord gs actor i).game_over = true ∧
      (handleGuessWord gs actor i).winner = some "Players Win! (15 Green Words)") := by
  have hka : gs.key_card_a.length = 25 := by
    rw [hkagen]; exact generate_key_cards_fst_length sg sa ag bg aa ba
  have hkb : gs.key_card_b.length = 25 := by
    rw [hkbgen]; exact generate_key_cards_snd_length sg sa ag bg aa ba
  have hgw := handleGuessWord_accepted gs actor i hguesser hactive (by omega) (by omega) hslot
  have hglen :
      (if some actor = gs.player_a_id then gs.key_card_a else gs.key_card_b).length = 25 := by
    by_cases h : some actor = gs.player_a_id <;> simp [h, hka, hkb]
  have hclen :
      (if gs.current_drawing_player_id = gs.player_a_id then gs.key_card_a
        else gs.key_card_b).length = 25 := by
    by_cases h : gs.current_drawing_player_id = gs.player_a_id <;> simp [h, hka, hkb]
  have hcond0 :
      ¬((if some actor = gs.player_a_id then gs.key_card_a else gs.key_card_b) = [] ∨
        (if gs.current_drawing_player_id = gs.player_a_id then gs.key_card_a
          else gs.key_card_b) = []) := by
    rintro (he | he)
    · rw [he] at hglen
      simp at hglen
    · rw [he] at hclen
      simp at hclen
  have hcond1 :
      i < (if some actor = gs.player_a_id then gs.key_card_a else gs.key_card_b).length ∧
      i < (if gs.current_drawing_player_id = gs.player_a_id then gs.key_card_a
        else gs.key_card_b).length := ⟨by omega, by omega⟩
  constructor
  · intro hc
    unfold clueGiverCard at hc
    have hcne :
        ¬(if gs.current_drawing_player_id = gs.player_a_id then gs.key_card_a
          else gs.key_card_b).getD i "" = "assassin" := by
      rw [hc]; decide
    have hg_ne :
        ¬(if some actor = gs.player_a_id then gs.key_card_a
          else gs.key_card_b).getD i "" = "assassin" := by
      by_cases hcga : gs.current_drawing_player_id = gs.player_a_id
      · simp only [if_pos hcga] at hc
        by_cases hga : some actor = gs.player_a_id
        · simp only [if_pos hga]
          rw [hc]; decide
        · simp only [if_neg hga]
          rw [hkbgen]
          rw [hkagen] at hc
          exact (generated_green_not_assassin sg sa ag bg aa ba hvs i hi).1 hc
      · simp only [if_neg hcga] at hc
        by_cases hga : some actor = gs.player_a_id
        · simp only [if_pos hga]
          rw [hkagen]
          rw [hkbgen] at hc
          exact (generated_green_not_assassin sg sa ag bg aa ba hvs i hi).2 hc
        · simp only [if_neg hga]
          rw [hc]; decide
    have hdneg :
        ¬((if some actor = gs.player_a_id then gs.key_card_a
            else gs.key_card_b).getD i "" = "assassin" ∧
          (if gs.current_drawing_player_id = gs.player_a_id then gs.key_card_a
            else gs.key_card_b).getD i "" = "assassin") := fun h => hcne h.2
    have hcneut :
        ¬(if gs.current_drawing_player_id = gs.player_a_id then gs.key_card_a
          else gs.key_card_b).getD i "" = "neutral" := by
      rw [hc]; decide
    have hcorrPos :
        ¬(if some actor = gs.player_a_id then gs.key_card_a
            else gs.key_card_b).getD i "" = "assassin" ∧
          (if gs.current_drawing_player_id = gs.player_a_id then gs.key_card_a
            else gs.key_card_b).getD i "" = "green" := ⟨hg_ne, hc⟩
    have hturnNeg :
        ¬((if some actor = gs.player_a_id then gs.key_card_a
            else gs.key_card_b).getD i "" = "assassin" ∨
          (if gs.current_drawing_player_id = gs.player_a_id then gs.key_card_a
            else gs.key_card_b).getD i "" = "neutral") := fun h => h.elim hg_ne hcneut
    rw [hgw]
    simp only [resolveGuess]
    rw [if_neg hcond0, if_pos hcond1, if_neg hdneg, if_neg hcne, if_neg hg_ne,
      if_pos hcorrPos, if_neg hturnNeg]
    split <;> first
      | exact ⟨rfl, hactive, rfl, rfl⟩
      | (split <;> exact ⟨rfl, hactive, rfl, rfl⟩)
  · intro hcne hwin15
    unfold clueGiverCard at hcne
    rw [hgw] at hwin15 ⊢
    simp only [resolveGuess] at hwin15 ⊢
    have hdneg :
        ¬((if some actor = gs.player_a_id then gs.key_card_a
            else gs.key_card_b).getD i "" = "assassin" ∧
          (if gs.current_drawing_player_id = gs.player_a_id then gs.key_card_a
            else gs.key_card_b).getD i "" = "assassin") := fun h => hcne h.2
    rw [if_neg hcond0, if_pos hcond1, if_neg hdneg, if_neg hcne] at hwin15 ⊢
    have hproj :
        ∀ c : Prop, ∀ inst : Decidable c, ∀ g1 : GameState,
          ((if c then turnTransition g1 else g1).grid_reveal_status) =
            g1.grid_reveal_status := by
      intro c inst g1
      split <;> rfl
    by_cases hga : some actor = gs.player_a_id
    · simp only [if_pos hga] at hwin15 ⊢
      by_cases hcga : gs.current_drawing_player_id = gs.player_a_id
      · simp only [if_pos hcga] at hwin15 ⊢
        by_cases hgown : gs.key_card_a.getD i "" = "assassin"
        · rw [if_pos hgown] at hwin15 ⊢
          split at hwin15
          next h => rw [if_pos h]; exact ⟨rfl, rfl⟩
          next h => exact absurd (by rw [hproj] at hwin15; exact hwin15) h
        · rw [if_neg hgown] at hwin15 ⊢
          split at hwin15
          next h => rw [if_pos h]; exact ⟨rfl, rfl⟩
          next h => exact absurd (by rw [hproj] at hwin15; exact hwin15) h
      · simp only [if_neg hcga] at hwin15 ⊢
        by_cases hgown : gs.key_card_a.getD i "" = "assassin"
        · rw [if_pos hgown] at hwin15 ⊢
          split at hwin15
          next h => rw [if_pos h]; exact ⟨rfl, rfl⟩
          next h => exact absurd (by rw [hproj] at hwin15; exact hwin15) h
        · rw [if_neg hgown] at hwin15 ⊢
          split at hwin15
          next h => rw [if_pos h]; exact ⟨rfl, rfl⟩
          next h => exact absurd (by rw [hproj] at hwin15; exact hwin15) h
    · simp only [if_neg hga] at hwin15 ⊢
      by_cases hcga : gs.current_drawing_player_id = gs.player_a_id
      · simp only [if_pos hcga] at hwin15 ⊢
        by_cases hgown : gs.key_card_b.getD i "" = "assassin"
        · rw [if_pos hgown] at hwin15 ⊢
          split at hwin15
          next h => rw [if_pos h]; exact ⟨rfl, rfl⟩
          next h => exact absurd (by rw [hproj] at hwin15; exact hwin15) h
        · rw [if_neg hgown] at hwin15 ⊢
          split at hwin15
          next h => rw [if_pos h]; exact ⟨rfl, rfl⟩
          next h => exact absurd (by rw [hproj] at hwin15; exact hwin15) h
      · simp only [if_neg hcga] at hwin15 ⊢
        by_cases hgown : gs.key_card_b.getD i "" = "assassin"
        · rw [if_pos hgown] at hwin15 ⊢
          split at hwin15
          next h => rw [if_pos h]; exact ⟨rfl, rfl⟩
          next h => exact absurd (by rw [hproj] at hwin15; exact hwin15) h
        · rw [if_neg hgown] at hwin15 ⊢
          split at hwin15
          next h => rw [if_pos h]; exact ⟨rfl, rfl⟩
          next h => exact absurd (by rw [hproj] at hwin15; exact hwin15) h

/-- C5: a repeated guess at an index already resolved for the current
drawer's perspective is silently ignored — the entire game state is left
unchanged. -/
theorem C5_already_revealed_guess_ignored (gs : GameState) (actor : String) (i : Nat)
    (hslot : perspectiveSlot gs i ≠ none) :
    handleGuessWord gs actor i = gs := by
  unfold handleGuessWord
  unfold perspectiveSlot at hslot
  by_cases h1 : some actor = gs.current_guessing_player_id ∧ gs.guessing_active = true
  case neg => rw [if_neg h1]
  rw [if_pos h1]
  by_cases h2 : i < gs.grid_words.length
  case neg => rw [if_neg h2]
  rw [if_pos h2]
  by_cases h3 : i < gs.grid_reveal_status.length
  case neg => rw [if_neg h3]
  rw [if_pos h3]
  by_cases hcga : gs.current_drawing_player_id = gs.player_a_id
  · simp only [if_pos hcga] at hslot
    exact if_pos (by rw [if_pos hcga]; exact hslot)
  · simp only [if_neg hcga] at hslot
    exact if_pos (by rw [if_neg hcga]; exact hslot)

/-- C4: every turn transition — a neutral guess, the guesser hitting their
own assassin, or END_GUESSING — swaps drawer and guesser, clears committed
strokes and the in-progress buffer, increments the turn number by exactly 1,
resets `correct_guesses_this_turn` to 0 and moves the phase back to Drawing.
The two guess-triggered cases assume the union-green reveal count is still
below 15 (true in every reachable guessing state; otherwise the win check
fires instead of the transition). -/
theorem C4_turn_transition (gs : GameState) (actor : String) (i : Nat) :
    (some actor = gs.current_guessing_player_id → gs.guessing_active = true →
      gs.grid_words.length = 25 → gs.grid_reveal_status.length = 25 →
      gs.key_card_a.length = 25 → gs.key_card_b.length = 25 → i < 25 →
      perspectiveSlot gs i = none →
      revealed_as_green_count gs.key_card_a gs.key_card_b gs.grid_reveal_status < 15 →
      (clueGiverCard gs).getD i "" = "neutral" →
      ¬(guesserCard gs actor).getD i "" = "assassin" →
      (handleGuessWord gs actor i).current_drawing_player_id =
          gs.current_guessing_player_id ∧
        (handleGuessWord gs actor i).current_guessing_player_id =
          gs.current_drawing_player_id ∧
        (handleGuessWord gs actor i).strokes = [] ∧
        (handleGuessWord gs actor i).current_turn_drawing_strokes = [] ∧
        (handleGuessWord gs actor i).turn_number = gs.turn_number + 1 ∧
        (handleGuessWord gs actor i).correct_guesses_this_turn = 0 ∧
        (handleGuessWord gs actor i).drawing_phase_active = true ∧
        (handleGuessWord gs actor i).guessing_active = false) ∧
    (some actor = gs.current_guessing_player_id → gs.guessing_active = true →
      gs.grid_words.length = 25 → gs.grid_reveal_status.length = 25 →
      gs.key_card_a.length = 25 → gs.key_card_b.length = 25 → i < 25 →
      perspectiveSlot gs i = none →
      revealed_as_green_count gs.key_card_a gs.key_card_b gs.grid_reveal_status < 15 →
      (guesserCard gs actor).getD i "" = "assassin" →
      ¬(clueGiverCard gs).getD i "" = "assassin" →
      (handleGuessWord gs actor i).current_drawing_player_id =
          gs.current_guessing_player_id ∧
        (handleGuessWord gs actor i).current_guessing_player_id =
          gs.current_drawing_player_id ∧
        (handleGuessWord gs actor i).strokes = [] ∧
        (handleGuessWord gs actor i).current_turn_drawing_strokes = [] ∧
        (handleGuessWord gs actor i).turn_number = gs.turn_number + 1 ∧
        (handleGuessWord gs actor i).correct_guesses_this_turn = 0 ∧
        (handleGuessWord gs actor i).drawing_phase_active = true ∧
        (handleGuessWord gs actor i).guessing_active = false) ∧
    (some actor = gs.current_guessing_player_id → gs.guessing_active = true →
      gs.game_over = false →
      (handleEndGuessing gs actor).current_drawing_player_id =
          gs.current_guessing_player_id ∧
        (handleEndGuessing gs actor).current_guessing_player_id =
          gs.current_drawing_player_id ∧
        (handleEndGuessing gs actor).strokes = [] ∧
        (handleEndGuessing gs actor).current_turn_drawing_strokes = [] ∧
        (handleEndGuessing gs actor).turn_number = gs.turn_number + 1 ∧
        (handleEndGuessing gs actor).correct_guesses_this_turn = 0 ∧
        (handleEndGuessing gs actor).drawing_phase_active = true ∧
        (handleEndGuessing gs actor).guessing_active = false) := by
  refine ⟨?_, ?_, ?_⟩
  · intro hguesser hactive hwords hrs hka hkb hi hslot hwin hc hgne
    have hgw := handleGuessWord_accepted gs actor i hguesser hactive (by omega) (by omega)
      hslot
    have hglen :
        (if some actor = gs.player_a_id then gs.key_card_a
          else gs.key_card_b).length = 25 := by
      by_cases h : some actor = gs.player_a_id <;> simp [h, hka, hkb]
    have hclen :
        (if gs.current_drawing_player_id = gs.player_a_id then gs.key_card_a
          else gs.key_card_b).length = 25 := by
      by_cases h : gs.current_drawing_player_id = gs.player_a_id <;> simp [h, hka, hkb]
    have hcond0 :
        ¬((if some actor = gs.player_a_id then gs.key_card_a else gs.key_card_b) = [] ∨
          (if gs.current_drawing_player_id = gs.player_a_id then gs.key_card_a
            else gs.key_card_b) = []) := by
      rintro (he | he)
      · rw [he] at hglen
        simp at hglen
      · rw [he] at hclen
        simp at hclen
    have hcond1 :
        i < (if some actor = gs.player_a_id then gs.key_card_a
          else gs.key_card_b).length ∧
        i < (if gs.current_drawing_player_id = gs.player_a_id then gs.key_card_a
          else gs.key_card_b).length := ⟨by omega, by omega⟩
    have hirs : i < gs.grid_reveal_status.length := by omega
    unfold clueGiverCard at hc
    unfold guesserCard at hgne
    unfold perspectiveSlot at hslot
    have hcne :
        ¬(if gs.current_drawing_player_id = gs.player_a_id then gs.key_card_a
          else gs.key_card_b).getD i "" = "assassin" := by
      rw [hc]; decide
    have hdneg :
        ¬((if some actor = gs.player_a_id then gs.key_card_a
            else gs.key_card_b).getD i "" = "assassin" ∧
          (if gs.current_drawing_player_id = gs.player_a_id then gs.key_card_a
            else gs.key_card_b).getD i "" = "assassin") := fun h => hcne h.2
    have hcorrNeg :
        ¬(¬(if some actor = gs.player_a_id then gs.key_card_a
            else gs.key_card_b).getD i "" = "assassin" ∧
          (if gs.current_drawing_player_id = gs.player_a_id then gs.key_card_a
            else gs.key_card_b).getD i "" = "green") := fun h => by
      rw [hc] at h
      exact absurd h.2 (by decide)
    rw [hgw]
    simp only [resolveGuess]
    rw [if_neg hcond0, if_pos hcond1, if_neg hdneg, if_neg hcne, if_neg hgne,
      if_neg hcorrNeg, if_pos (Or.inr hc)]
    by_cases hcga : gs.current_drawing_player_id = gs.player_a_id
    · simp only [if_pos hcga] at hslot hc ⊢
      split
      next h =>
        exfalso
        rw [revealed_as_green_count_set_eq gs.key_card_a gs.key_card_b
          gs.grid_reveal_status i _ hirs (by rw [hc, hslot]; rfl) (by rfl)] at h
        omega
      next h => exact ⟨rfl, rfl, rfl, rfl, rfl, rfl, rfl, rfl⟩
    · simp only [if_neg hcga] at hslot hc ⊢
      split
      next h =>
        exfalso
        rw [revealed_as_green_count_set_eq gs.key_card_a gs.key_card_b
          gs.grid_reveal_status i _ hirs (by rfl) (by rw [hc, hslot]; rfl)] at h
        omega
      next h => exact ⟨rfl, rfl, rfl, rfl, rfl, rfl, rfl, rfl⟩
  · intro hguesser hactive hwords hrs hka hkb hi hslot hwin hg hcne
    have hgw := handleGuessWord_accepted gs actor i hguesser hactive (by omega) (by omega)
      hslot
    have hglen :
        (if some actor = gs.player_a_id then gs.key_card_a
          else gs.key_card_b).length = 25 := by
      by_cases h : some actor = gs.player_a_id <;> simp [h, hka, hkb]
    have hclen :
        (if gs.current_drawing_player_id = gs.player_a_id then gs.key_card_a
          else gs.key_card_b).length = 25 := by
      by_cases h : gs.current_drawing_player_id = gs.player_a_id <;> simp [h, hka, hkb]
    have hcond0 :
        ¬((if some actor = gs.player_a_id then gs.key_card_a else gs.key_card_b) = [] ∨
          (if gs.current_drawing_player_id = gs.player_a_id then gs.key_card_a
            else gs.key_card_b) = []) := by
      rintro (he | he)
      · rw [he] at hglen
        simp at hglen
      · rw [he] at hclen
        simp at hclen
    have hcond1 :
        i < (if some actor = gs.player_a_id then gs.key_card_a
          else gs.key_card_b).length ∧
        i < (if gs.current_drawing_player_id = gs.player_a_id then gs.key_card_a
          else gs.key_card_b).length := ⟨by omega, by omega⟩
    unfold guesserCard at hg
    unfold clueGiverCard at hcne
    have hdneg :
        ¬((if some actor = gs.player_a_id then gs.key_card_a
            else gs.key_card_b).getD i "" = "assassin" ∧
          (if gs.current_drawing_player_id = gs.player_a_id then gs.key_card_a
            else gs.key_card_b).getD i "" = "assassin") := fun h => hcne h.2
    rw [hgw]
    simp only [resolveGuess]
    rw [if_neg hcond0, if_pos hcond1, if_neg hdneg, if_neg hcne, if_pos hg]
    have hwin' :
        ¬15 ≤ revealed_as_green_count gs.key_card_a gs.key_card_b
          gs.grid_reveal_status := by omega
    rw [if_neg hwin', if_pos (Or.inl hg)]
    exact ⟨rfl, rfl, rfl, rfl, rfl, rfl, rfl, rfl⟩
  · intro hguesser hactive hnotover
    unfold handleEndGuessing
    rw [if_pos ⟨hguesser, hactive, hnotover⟩]
    exact ⟨rfl, rfl, rfl, rfl, rfl, rfl, rfl, rfl⟩


/-- Characterisation of an accepted SUBMIT_DRAWING whose payload carries a
non-empty list of stroke candidates that all validate. -/
theorem handleSubmitDrawing_accepted (gs : GameState) (actor : String)
    (payload : List (Option Stroke)) (strokes1 : List Stroke)
    (hdr : some actor = gs.current_drawing_player_id)
    (hphase : gs.drawing_phase_active = true)
    (hnotsub : gs.drawing_submitted = false)
    (hne : payload ≠ [])
    (hval : payload.filterMap id = strokes1)
    (hvne : strokes1 ≠ []) :
    handleSubmitDrawing gs actor (some payload) =
      { gs with
        current_turn_drawing_strokes := strokes1,
        strokes := gs.strokes ++ strokes1,
        drawing_phase_active := false,
        drawing_submitted := true,
        guessing_active := true } := by
  unfold handleSubmitDrawing
  rw [if_pos ⟨hdr, hphase, hnotsub⟩]
  dsimp only
  rw [hval, if_pos (by simpa [List.length_pos] using hne), if_pos hvne]

/-- C6: SUBMIT_DRAWING by the current drawer in the Drawing phase with a
supplied non-empty (fully validated) stroke list replaces the in-progress
buffer with it, appends the buffer content to the committed strokes, moves
the phase to Guessing, and any second SUBMIT_DRAWING before the next Drawing
phase (any actor, any payload) is a no-op. -/
theorem C6_submit_drawing (gs : GameState) (actor : String)
    (payload : List (Option Stroke)) (strokes1 : List Stroke)
    (hdr : some actor = gs.current_drawing_player_id)
    (hphase : gs.drawing_phase_active = true)
    (hnotsub : gs.drawing_submitted = false)
    (hne : payload ≠ [])
    (hval : payload.filterMap id = strokes1)
    (hvne : strokes1 ≠ []) :
    (handleSubmitDrawing gs actor (some payload)).current_turn_drawing_strokes = strokes1 ∧
    (handleSubmitDrawing gs actor (some payload)).strokes = gs.strokes ++ strokes1 ∧
    (handleSubmitDrawing gs actor (some payload)).drawing_phase_active = false ∧
    (handleSubmitDrawing gs actor (some payload)).drawing_submitted = true ∧
    (handleSubmitDrawing gs actor (some payload)).guessing_active = true ∧
    ∀ (actor2 : String) (payload2 : Option (List (Option Stroke))),
      handleSubmitDrawing (handleSubmitDrawing gs actor (some payload)) actor2 payload2 =
        handleSubmitDrawing gs actor (some payload) := by
  rw [handleSubmitDrawing_accepted gs actor payload strokes1 hdr hphase hnotsub hne hval hvne]
  refine ⟨rfl, rfl, rfl, rfl, rfl, ?_⟩
  intro actor2 payload2
  unfold handleSubmitDrawing
  exact if_neg (fun h => by simp at h)

/-- C10: SUBMIT_DRAWING by the current drawer with an explicitly empty
strokes list clears the in-progress buffer before committing, so the
committed stroke sequence is unchanged, yet the phase still moves to
Guessing. -/
theorem C10_submit_drawing_empty_payload (gs : GameState) (actor : String)
    (hdr : some actor = gs.current_drawing_player_id)
    (hphase : gs.drawing_phase_active = true)
    (hnotsub : gs.drawing_submitted = false) :
    (handleSubmitDrawing gs actor (some [])).current_turn_drawing_strokes = [] ∧
    (handleSubmitDrawing gs actor (some [])).strokes = gs.strokes ∧
    (handleSubmitDrawing gs actor (some [])).drawing_phase_active = false ∧
    (handleSubmitDrawing gs actor (some [])).drawing_submitted = true ∧
    (handleSubmitDrawing gs actor (some [])).guessing_active = true := by
  unfold handleSubmitDrawing
  rw [if_pos ⟨hdr, hphase, hnotsub⟩]
  dsimp only
  rw [if_neg (by decide)]
  exact ⟨rfl, by simp, rfl, rfl, rfl⟩

/-- C7 (code bug): `GameOver` is not terminal.  After the players have won
(`sampleWonState`: `game_over = true`, winner recorded, guessing still the
active flag exactly as the code leaves it), a further GUESS_WORD at the
still-unrevealed index 16 — an assassin on the drawer's card — is accepted,
mutates the state, and overwrites the recorded winner with a loss:
GUESS_WORD has no `game_over` guard (main.py 449), unlike END_GUESSING
(main.py 598). -/
theorem C7_game_over_not_terminal_failing_input :
    sampleWonState.game_over = true ∧
    sampleWonState.winner = some "Players Win! (15 Green Words)" ∧
    handleGuessWord sampleWonState "B" 16 ≠ sampleWonState ∧
    (handleGuessWord sampleWonState "B" 16).winner =
      some "Players Lose! (Assassin Revealed)" := by
  refine ⟨rfl, rfl, ?_, ?_⟩ <;> decide

/-- C8 (code bug): the drawer/guesser-distinctness invariant is broken by the
disconnect role-promotion.  From the reachable state with `player_a = drawer
= "A"` and `player_b = guesser = "B"`, disconnecting "A" clears the drawer
pointer and then promotes the remaining player "B" into the vacant drawer
slot without checking that "B" is already the guesser (main.py 692-694 has
no analogue of the `!= current_drawing_player_id` guard used at 696-699), so
both role pointers end up referencing "B". -/
theorem C8_drawer_equals_guesser_after_disconnect :
    sampleGuessingState.current_drawing_player_id = some "A" ∧
    sampleGuessingState.current_guessing_player_id = some "B" ∧
    (handleDisconnect sampleGuessingState "A").map
      (fun g => g.current_drawing_player_id) = some (some "B") ∧
    (handleDisconnect sampleGuessingState "A").map
      (fun g => g.current_guessing_player_id) = some (some "B") := by
  refine ⟨rfl, rfl, ?_, ?_⟩ <;> decide

/-- C9 counterexample: at the concrete unknown room id "quickfox1" and an
empty registry, the connection is not refused — a new room is created and
registered under that id, so the claim "the connection is refused and no
room is created" is false on the code. -/
theorem C9_unknown_room_counterexample :
    resolveGameId [] "quickfox1" = (["quickfox1"], "quickfox1") ∧
    (resolveGameId [] "quickfox1").1 ≠ ([] : List String) := by
  refine ⟨rfl, ?_⟩
  decide

/-- C9 amended: a connection naming a room id with no (case-insensitive)
match in the registry is accepted: a brand-new game is created and
registered under the requested id, which becomes the established game id. -/
theorem C9_unknown_room_creates_game (registry : List String) (game_id_path : String)
    (h : ∀ k ∈ registry, (k.toLower == game_id_path.toLower) = false) :
    resolveGameId registry game_id_path = (registry ++ [game_id_path], game_id_path) := by
  unfold resolveGameId
  rw [List.find?_eq_none.mpr (fun x hx => by rw [h x hx]; exact fun hc => nomatch hc)]

/-- Witness for the amended C9 at a concrete registry and room id. -/
theorem C9_unknown_room_creates_game_witness :
    (∀ k ∈ ([] : List String), (k.toLower == "quickfox1".toLower) = false) ∧
    resolveGameId [] "quickfox1" = ([] ++ ["quickfox1"], "quickfox1") :=
  ⟨by decide, C9_unknown_room_creates_game [] "quickfox1" (by decide)⟩


/-- Witness for C2 at the shared-assassin index 3 of the sample room. -/
theorem C2_guess_assassin_cases_witness :
    ((guesserCard sampleGuessingState "B").getD 3 "" = "assassin" ∧
      (clueGiverCard sampleGuessingState).getD 3 "" = "assassin") ∧
    (handleGuessWord sampleGuessingState "B" 3).game_over = true ∧
    (handleGuessWord sampleGuessingState "B" 3).winner =
      some "Players Lose! (Double Assassin)" ∧
    perspectiveSlot (handleGuessWord sampleGuessingState "B" 3) 3 = some "assassin" :=
  ⟨⟨by decide, by decide⟩,
    (C2_guess_assassin_cases sampleGuessingState "B" 3 (by decide) (by decide) (by decide)
        (by decide) (by decide) (by decide) (by decide) (by decide)).1
      ⟨by decide, by decide⟩⟩

/-- Witness for C3 at index 4, green on the drawer's sample card. -/
theorem C3_green_guess_and_win_condition_witness :
    (clueGiverCard sampleGuessingState).getD 4 "" = "green" ∧
    ((handleGuessWord sampleGuessingState "B" 4).correct_guesses_this_turn =
      sampleGuessingState.correct_guesses_this_turn + 1 ∧
    (handleGuessWord sampleGuessingState "B" 4).guessing_active = true ∧
    (handleGuessWord sampleGuessingState "B" 4).drawing_phase_active =
      sampleGuessingState.drawing_phase_active ∧
    (handleGuessWord sampleGuessingState "B" 4).turn_number =
      sampleGuessingState.turn_number) :=
  ⟨by decide,
    (C3_green_guess_and_win_condition [0, 1, 2] 3 [4, 5, 6, 7, 8, 9]
        [10, 11, 12, 13, 14, 15] [16, 17] [18, 19] sampleGuessingState "B" 4
        (by unfold ValidSample; decide) rfl rfl (by decide) (by decide) (by decide)
        (by decide) (by decide) (by decide)).1 (by decide)⟩

/-- Witness for C4 at the both-neutral index 20 of the sample room. -/
theorem C4_turn_transition_witness :
    (handleGuessWord sampleGuessingState "B" 20).current_drawing_player_id =
        sampleGuessingState.current_guessing_player_id ∧
    (handleGuessWord sampleGuessingState "B" 20).current_guessing_player_id =
        sampleGuessingState.current_drawing_player_id ∧
    (handleGuessWord sampleGuessingState "B" 20).strokes = [] ∧
    (handleGuessWord sampleGuessingState "B" 20).current_turn_drawing_strokes = [] ∧
    (handleGuessWord sampleGuessingState "B" 20).turn_number =
      sampleGuessingState.turn_number + 1 ∧
    (handleGuessWord sampleGuessingState "B" 20).correct_guesses_this_turn = 0 ∧
    (handleGuessWord sampleGuessingState "B" 20).drawing_phase_active = true ∧
    (handleGuessWord sampleGuessingState "B" 20).guessing_active = false :=
  (C4_turn_transition sampleGuessingState "B" 20).1 (by decide) (by decide) (by decide)
    (by decide) (by decide) (by decide) (by decide) (by decide) (by decide) (by decide)
    (by decide)

/-- Witness for C5 at the already-revealed index 4. -/
theorem C5_already_revealed_guess_ignored_witness :
    perspectiveSlot sampleRevealedState 4 ≠ none ∧
    handleGuessWord sampleRevealedState "B" 4 = sampleRevealedState :=
  ⟨by decide, C5_already_revealed_guess_ignored sampleRevealedState "B" 4 (by decide)⟩

/-- Witness for C6: a one-stroke payload submitted from the sample drawing
state. -/
theorem C6_submit_drawing_witness :
    (handleSubmitDrawing sampleDrawingState "A"
      (some [some ⟨"stroke-2", [[5, 6]], "#ff0000", 3, "pen"⟩])).current_turn_drawing_strokes
        = [⟨"stroke-2", [[5, 6]], "#ff0000", 3, "pen"⟩] ∧
    (handleSubmitDrawing sampleDrawingState "A"
      (some [some ⟨"stroke-2", [[5, 6]], "#ff0000", 3, "pen"⟩])).strokes =
        sampleDrawingState.strokes ++ [⟨"stroke-2", [[5, 6]], "#ff0000", 3, "pen"⟩] ∧
    (handleSubmitDrawing sampleDrawingState "A"
      (some [some ⟨"stroke-2", [[5, 6]], "#ff0000", 3, "pen"⟩])).drawing_phase_active
        = false ∧
    (handleSubmitDrawing sampleDrawingState "A"
      (some [some ⟨"stroke-2", [[5, 6]], "#ff0000", 3, "pen"⟩])).drawing_submitted = true ∧
    (handleSubmitDrawing sampleDrawingState "A"
      (some [some ⟨"stroke-2", [[5, 6]], "#ff0000", 3, "pen"⟩])).guessing_active = true ∧
    ∀ (actor2 : String) (payload2 : Option (List (Option Stroke))),
      handleSubmitDrawing (handleSubmitDrawing sampleDrawingState "A"
          (some [some ⟨"stroke-2", [[5, 6]], "#ff0000", 3, "pen"⟩])) actor2 payload2 =
        handleSubmitDrawing sampleDrawingState "A"
          (some [some ⟨"stroke-2", [[5, 6]], "#ff0000", 3, "pen"⟩]) :=
  C6_submit_drawing sampleDrawingState "A"
    [some ⟨"stroke-2", [[5, 6]], "#ff0000", 3, "pen"⟩]
    [⟨"stroke-2", [[5, 6]], "#ff0000", 3, "pen"⟩]
    (by decide) rfl rfl (by decide) rfl (by decide)

/-- Witness for C10: the empty-list payload submitted from the sample
drawing state. -/
theorem C10_submit_drawing_empty_payload_witness :
    (handleSubmitDrawing sampleDrawingState "A" (some [])).current_turn_drawing_strokes
      = [] ∧
    (handleSubmitDrawing sampleDrawingState "A" (some [])).strokes =
      sampleDrawingState.strokes ∧
    (handleSubmitDrawing sampleDrawingState "A" (some [])).drawing_phase_active = false ∧
    (handleSubmitDrawing sampleDrawingState "A" (some [])).drawing_submitted = true ∧
    (handleSubmitDrawing sampleDrawingState "A" (some [])).guessing_active = true :=
  C10_submit_drawing_empty_payload sampleDrawingState "A" (by decide) rfl rfl

end SketchCodes
